import Mathlib

/-!
Verification of `llm_server.py` (HandyBoss local LLM HTTP server).

Shallow embedding: strings are `List Char`; the socket layer, the inference
engine and the `json` library are external collaborators and appear as
function parameters (`available`, `invoke`, `loads`/`dumps`).  Fallible
Python code is modelled with `Option`/`Except`: `none`/`Except.error`
stands for a raised exception (or, for port selection, for `sys.exit(1)`).
-/

/-- Python whitespace test used by `str.strip()` (ASCII whitespace; the
source never feeds non-ASCII whitespace to `strip`). -/
def pyIsSpace (c : Char) : Bool :=
  c = ' ' || c = '\t' || c = '\n' || c = '\r' || c = '\x0b' || c = '\x0c'

/-- Python `s.lstrip()`: drop leading whitespace. -/
def pyLstrip (s : List Char) : List Char := s.dropWhile pyIsSpace

/-- Python `s.rstrip()`: drop trailing whitespace. -/
def pyRstrip (s : List Char) : List Char := (s.reverse.dropWhile pyIsSpace).reverse

/-- Python `s.strip()`: drop leading and trailing whitespace. -/
def pyStrip (s : List Char) : List Char := pyLstrip (pyRstrip s)

/-- Python `s.endswith(suf)`. -/
def pyEndswith (s suf : List Char) : Bool := suf.reverse.isPrefixOf s.reverse

/-- The loop body of `find_available_port` (lines 37-43): starting at `port`,
probe `fuel` consecutive ports and return the first one for which
`is_port_available` (the socket-bind oracle `available`) answers true. -/
def probePorts (available : Nat → Bool) : Nat → Nat → Option Nat
  | 0, _ => none
  | fuel + 1, port => if available port then some port else probePorts available fuel (port + 1)

/-- `find_available_port(start_port)` (lines 37-43): the loop
`while port < start_port + 20` makes exactly 20 probes starting at
`start_port`; returns `None` when all are occupied. -/
def find_available_port (available : Nat → Bool) (start_port : Nat) : Option Nat :=
  probePorts available 20 start_port

/-- Port selection in `__main__` (lines 146-155): first test the preferred
port `default_port` itself; if occupied, call `find_available_port(port + 1)`.
`none` models the `sys.exit(1)` path (non-zero exit, no port bound). -/
def mainSelectPort (available : Nat → Bool) (default_port : Nat) : Option Nat :=
  if available default_port then some default_port
  else find_available_port available (default_port + 1)

/-- The literal `"json"` compared against `request.response_format`. -/
def jsonFormat : List Char := "json".toList

/-- The instruction line appended at line 102. -/
def jsonInstruction : List Char := "\nRespond with valid JSON only:".toList

/-- Lines 94-97: chat wrapping of the raw prompt.  Python truthiness of
`request.systemPrompt` (default `""`): the wrap happens iff the system
prompt is non-empty. -/
def composePrompt (prompt systemPrompt : List Char) : List Char :=
  if systemPrompt = [] then prompt
  else "System: ".toList ++ systemPrompt ++ "\nUser: ".toList ++ prompt ++ "\nAssistant:".toList

/-- Lines 94-102: the full prompt handed to the engine: chat wrapping, then,
for `response_format == "json"`, the suffix test
`full_prompt.strip().endswith("json")` deciding whether the JSON
instruction line is appended. -/
def composeFull (prompt systemPrompt response_format : List Char) : List Char :=
  if response_format = jsonFormat then
    if pyEndswith (pyStrip (composePrompt prompt systemPrompt)) jsonFormat then
      composePrompt prompt systemPrompt
    else composePrompt prompt systemPrompt ++ jsonInstruction
  else composePrompt prompt systemPrompt

/-- Line 123: `re.search` with pattern brace-dot-star-brace under `DOTALL`
on the stripped text: the span from the leftmost opening brace to the
rightmost closing brace, provided the latter comes after the former
(greedy span match, not a balanced-brace parse). -/
def jsonSpanMatch (s : List Char) : Option (List Char) :=
  match s.findIdx? (fun c => c = '\x7b'), s.reverse.findIdx? (fun c => c = '\x7d') with
  | some i, some rj =>
    let j := s.length - 1 - rj
    if i < j then some ((s.drop i).take (j - i + 1)) else none
  | _, _ => none

/-- Lines 116-131: response formatting.  `generated_text` is the stripped
engine text; for `"json"` format the brace span is extracted and parsed,
and on success the reserialized object replaces the text.  `loads`/`dumps`
are the Python `json` library collaborator; `loads s = none` models
`json.loads` raising, which the source catches (lines 129-131), falling
back to the stripped raw text.  The function is total: no error escapes. -/
def formatOutput {α : Type} (loads : List Char → Option α) (dumps : α → List Char)
    (response_format raw : List Char) : List Char :=
  if response_format = jsonFormat then
    match jsonSpanMatch (pyStrip raw) with
    | some json_str =>
      match loads json_str with
      | some json_obj => dumps json_obj
      | none => pyStrip raw
    | none => pyStrip raw
  else pyStrip raw

/-- Response model of lines 80-82 (`tokenCount` is `int`). -/
structure GenerationResponse where
  text : List Char
  tokenCount : Int

/-- An `HTTPException(status_code=..., detail=...)` as FastAPI surfaces it. -/
structure HttpError where
  status : Nat
  detail : List Char

/-- Lines 91-143: the `/generate` handler.  `invoke` models the engine call
`model(full_prompt, max_tokens=..., temperature=..., stop=["User:", "\n\n"])`
together with the `response["choices"][0]["text"]` projection; it is closed
over `max_tokens` and `temperature`, which pass through unvalidated and do
not affect control flow here.  `Except.error e` models a raised exception
whose `str` is `e`; the `except` block (lines 141-143) turns any such
failure into a 500 error whose detail is the string
`"Generation error: "` followed by the reason.  On success the fixed
`token_count = 10` (line 134) is returned. -/
def generateHandler {α : Type} (invoke : List Char → Except (List Char) (List Char))
    (loads : List Char → Option α) (dumps : α → List Char)
    (prompt systemPrompt response_format : List Char) :
    Except HttpError GenerationResponse :=
  match invoke (composeFull prompt systemPrompt response_format) with
  | Except.error e => Except.error ⟨500, "Generation error: ".toList ++ e⟩
  | Except.ok raw => Except.ok ⟨formatOutput loads dumps response_format raw, 10⟩

/-- A concrete instance of the `json` collaborator contract (used only to
instantiate universally quantified collaborator parameters on concrete
inputs): it recognises exactly the two-character text of an empty object. -/
def toyLoads (s : List Char) : Option Unit :=
  if s = ['\x7b', '\x7d'] then some () else none

/-- Serializer matching `toyLoads`. -/
def toyDumps : Unit → List Char := fun _ => ['\x7b', '\x7d']

/-! ## Port negotiation -/

theorem probePorts_none_iff (available : Nat → Bool) (fuel start : Nat) :
    probePorts available fuel start = none ↔
      ∀ q, start ≤ q → q < start + fuel → available q = false := by
  induction fuel generalizing start with
  | zero =>
    constructor
    · intro _ q h1 h2; omega
    · intro _; rfl
  | succ n ih =>
    simp only [probePorts]
    by_cases h : available start = true
    · rw [if_pos h]
      constructor
      · intro hc; exact absurd hc (by simp)
      · intro hall
        have hx := hall start (le_refl _) (by omega)
        rw [h] at hx; exact absurd hx (by simp)
    · rw [if_neg h, ih (start + 1)]
      constructor
      · intro hall q h1 h2
        rcases Nat.eq_or_lt_of_le h1 with he | hl
        · rw [← he]; exact Bool.eq_false_iff.mpr h
        · exact hall q hl (by omega)
      · intro hall q h1 h2
        exact hall q (by omega) (by omega)

theorem probePorts_some_spec (available : Nat → Bool) (fuel start q : Nat)
    (h : probePorts available fuel start = some q) :
    start ≤ q ∧ q < start + fuel ∧ available q = true := by
  induction fuel generalizing start with
  | zero => exact absurd h (by simp [probePorts])
  | succ n ih =>
    simp only [probePorts] at h
    by_cases ha : available start = true
    · rw [if_pos ha] at h
      cases h
      exact ⟨le_refl _, by omega, ha⟩
    · rw [if_neg ha] at h
      obtain ⟨h1, h2, h3⟩ := ih (start + 1) h
      exact ⟨by omega, by omega, h3⟩

theorem probePorts_some_of (available : Nat → Bool) (fuel start q : Nat)
    (hq1 : start ≤ q) (hq2 : q < start + fuel) (hav : available q = true)
    (hbefore : ∀ r, start ≤ r → r < q → available r = false) :
    probePorts available fuel start = some q := by
  induction fuel generalizing start with
  | zero => omega
  | succ n ih =>
    simp only [probePorts]
    by_cases h : available start = true
    · have hse : start = q := by
        by_contra hne
        have hlt : start < q := by omega
        have hx := hbefore start (le_refl _) hlt
        rw [hx] at h; exact absurd h (by simp)
      rw [if_pos h, hse]
    · rw [if_neg h]
      have hsq : start ≠ q := by
        intro he; rw [he, hav] at h; exact h rfl
      exact ih (start + 1) (by omega) (by omega)
        (fun r hr1 hr2 => hbefore r (by omega) hr2)

/-- Claim C1 counterexample: with preferred port P = 6789 and exactly
port 6809 = P + 20 free, the selection in `__main__` returns 6809 — a
port outside the claimed candidate range P .. P + 19 — instead of failing
with `NoPortAvailable`. -/
theorem c1_counterexample :
    mainSelectPort (fun p => decide (p = 6809)) 6789 = some 6809
      ∧ ¬ (6809 ≤ 6789 + 19) := by
  constructor
  · rfl
  · decide

/-- Claim C1 (amended): port negotiation probes the 21 candidates
P, P + 1, ..., P + 20 (the preferred port, then a 20-port scan starting at
P + 1).  It fails — `sys.exit(1)`, modelled `none` — exactly when none of
those 21 candidates is reservable, and any port it selects lies in
[P, P + 20] and is reservable. -/
theorem c1_port_negotiation (available : Nat → Bool) (P : Nat) :
    (mainSelectPort available P = none ↔
       ∀ q, P ≤ q → q ≤ P + 20 → available q = false)
    ∧ (∀ q, mainSelectPort available P = some q →
        P ≤ q ∧ q ≤ P + 20 ∧ available q = true) := by
  unfold mainSelectPort find_available_port
  by_cases h : available P = true
  · rw [if_pos h]
    constructor
    · constructor
      · intro hc; exact absurd hc (by simp)
      · intro hall
        have hx := hall P (le_refl _) (by omega)
        rw [h] at hx; exact absurd hx (by simp)
    · intro q hq
      cases hq
      exact ⟨le_refl _, by omega, h⟩
  · rw [if_neg h]
    constructor
    · rw [probePorts_none_iff]
      constructor
      · intro hall q h1 h2
        rcases Nat.eq_or_lt_of_le h1 with he | hl
        · rw [← he]; exact Bool.eq_false_iff.mpr h
        · exact hall q hl (by omega)
      · intro hall q h1 h2
        exact hall q (by omega) (by omega)
    · intro q hq
      obtain ⟨h1, h2, h3⟩ := probePorts_some_spec available 20 (P + 1) q hq
      exact ⟨by omega, by omega, h3⟩

/-- Witness for `c1_port_negotiation` at a concrete occupancy oracle. -/
theorem c1_port_negotiation_witness :
    6789 ≤ 6809 ∧ 6809 ≤ 6789 + 20 ∧ (fun p => decide (p = 6809)) 6809 = true :=
  (c1_port_negotiation (fun p => decide (p = 6809)) 6789).2 6809 rfl

/-- Claim C8: negotiation picks the first reservable candidate in ascending
order: if P and P + 1 .. P + 4 are occupied but P + 5 is free, the selected
port is P + 5. -/
theorem c8_first_fit (available : Nat → Bool) (P : Nat)
    (h0 : available P = false)
    (h : ∀ i, 1 ≤ i → i ≤ 4 → available (P + i) = false)
    (h5 : available (P + 5) = true) :
    mainSelectPort available P = some (P + 5) := by
  unfold mainSelectPort find_available_port
  rw [if_neg (by rw [h0]; exact Bool.false_ne_true)]
  apply probePorts_some_of available 20 (P + 1) (P + 5) (by omega) (by omega) h5
  intro r hr1 hr2
  have he : r = P + (r - P) := by omega
  rw [he]
  exact h (r - P) (by omega) (by omega)

/-- Witness for `c8_first_fit`: preferred port 6789, ports 6790-6793
occupied, 6794 free. -/
theorem c8_first_fit_witness :
    mainSelectPort (fun p => decide (p = 6794)) 6789 = some (6789 + 5) :=
  c8_first_fit (fun p => decide (p = 6794)) 6789 (by decide)
    (fun i h1 h2 => by interval_cases i <;> decide)
    (by decide)

/-! ## String helper lemmas -/

theorem pyEndswith_pyLstrip (r J : List Char) (hJ : ∀ c ∈ J, pyIsSpace c = false) :
    pyEndswith (pyLstrip r) J = pyEndswith r J := by
  rw [Bool.eq_iff_iff]
  unfold pyEndswith pyLstrip
  rw [List.isPrefixOf_iff_prefix, List.isPrefixOf_iff_prefix]
  have hr : r.takeWhile pyIsSpace ++ r.dropWhile pyIsSpace = r :=
    List.takeWhile_append_dropWhile pyIsSpace r
  have hrev : r.reverse = (r.dropWhile pyIsSpace).reverse ++ (r.takeWhile pyIsSpace).reverse := by
    rw [← List.reverse_append, hr]
  constructor
  · intro hp
    rw [hrev]
    exact hp.trans (List.prefix_append _ _)
  · intro hp
    rw [hrev] at hp
    rw [List.prefix_iff_eq_take] at hp
    rw [List.take_append_eq_append_take] at hp
    by_cases hn : J.reverse.length ≤ (r.dropWhile pyIsSpace).reverse.length
    · rw [Nat.sub_eq_zero_of_le hn, List.take_zero, List.append_nil] at hp
      rw [List.prefix_iff_eq_take]
      exact hp
    · rw [List.take_of_length_le (by omega)] at hp
      rcases hu : List.take (J.reverse.length - (r.dropWhile pyIsSpace).reverse.length)
          (r.takeWhile pyIsSpace).reverse with _ | ⟨c, u⟩
      · rw [hu, List.append_nil] at hp
        rw [hp]
      · rw [hu] at hp
        have hcJ : c ∈ J := by
          rw [← List.mem_reverse, hp]
          exact List.mem_append_right _ (List.mem_cons_self c u)
        have hcw : c ∈ r.takeWhile pyIsSpace := by
          rw [← List.mem_reverse]
          exact List.take_subset _ _ (hu ▸ List.mem_cons_self c u)
        have h1 : pyIsSpace c = false := hJ c hcJ
        have h2 : pyIsSpace c = true := List.mem_takeWhile_imp hcw
        rw [h1] at h2
        exact absurd h2 (by simp)

theorem pyEndswith_pyStrip_json (x : List Char) :
    pyEndswith (pyStrip x) jsonFormat = pyEndswith (pyRstrip x) jsonFormat :=
  pyEndswith_pyLstrip (pyRstrip x) jsonFormat (by decide)

theorem pyRstrip_append_of_nonspace (t : List Char) (a : Char) (ha : pyIsSpace a = false) :
    pyRstrip (t ++ [a]) = t ++ [a] := by
  unfold pyRstrip
  rw [List.reverse_append]
  simp only [List.reverse_cons, List.reverse_nil, List.nil_append, List.singleton_append]
  rw [List.dropWhile_cons, ha]
  simp

theorem pyStrip_append_of_nonspace (t : List Char) (a : Char) (ha : pyIsSpace a = false) :
    ∃ u, pyStrip (t ++ [a]) = u ++ [a] := by
  unfold pyStrip
  rw [pyRstrip_append_of_nonspace t a ha]
  unfold pyLstrip
  rw [List.dropWhile_append]
  by_cases h : (t.dropWhile pyIsSpace).isEmpty = true
  · rw [if_pos h]
    refine ⟨[], ?_⟩
    rw [List.dropWhile_cons, ha]
    simp
  · rw [if_neg h]
    exact ⟨t.dropWhile pyIsSpace, rfl⟩

theorem pyEndswith_append_colon_json (u : List Char) :
    pyEndswith (u ++ [':']) jsonFormat = false := by
  rw [Bool.eq_false_iff]
  intro hc
  unfold pyEndswith at hc
  rw [List.isPrefixOf_iff_prefix, List.reverse_append] at hc
  simp only [List.reverse_cons, List.reverse_nil, List.nil_append,
    List.singleton_append] at hc
  have hj : jsonFormat.reverse = 'n' :: "osj".toList := rfl
  rw [hj] at hc
  rcases List.cons_prefix_cons.mp hc with ⟨h1, -⟩
  exact absurd h1 (by decide)

/-! ## Prompt composition claims -/

/-- Claim C2 counterexample: prompt "hi", empty systemPrompt, response
format "json": the prompt handed to the engine gains the JSON instruction
line, so it is not the raw prompt unchanged. -/
theorem c2_counterexample :
    composeFull "hi".toList [] jsonFormat ≠ "hi".toList := by decide

/-- Claim C2 (amended): with empty systemPrompt no chat wrapping occurs:
the composed prompt passed to the engine is the raw prompt unchanged,
except that when response_format is "json" and the stripped raw prompt
does not already end with "json", the JSON instruction line is appended
to it. -/
theorem c2_empty_system_prompt (prompt response_format : List Char) :
    (response_format ≠ jsonFormat → composeFull prompt [] response_format = prompt)
    ∧ (pyEndswith (pyStrip prompt) jsonFormat = true →
        composeFull prompt [] response_format = prompt)
    ∧ (response_format = jsonFormat → pyEndswith (pyStrip prompt) jsonFormat = false →
        composeFull prompt [] response_format = prompt ++ jsonInstruction) := by
  have hcp : composePrompt prompt [] = prompt := if_pos rfl
  unfold composeFull
  rw [hcp]
  refine ⟨?_, ?_, ?_⟩
  · intro h
    rw [if_neg h]
  · intro h
    by_cases hf : response_format = jsonFormat
    · rw [if_pos hf, if_pos h]
    · rw [if_neg hf]
  · intro hf h
    rw [if_pos hf, if_neg (by rw [h]; exact Bool.false_ne_true)]

/-- Witness for `c2_empty_system_prompt`: a plain-text request passes the
raw prompt through unchanged. -/
theorem c2_empty_system_prompt_witness :
    composeFull "hi".toList [] "text".toList = "hi".toList :=
  (c2_empty_system_prompt "hi".toList "text".toList).1 (by decide)

/-- Claim C3: for response format "json", if the composed (chat-wrapped)
prompt trimmed of trailing whitespace does not end with "json", the JSON
instruction line is appended; if it does already end with "json", nothing
is appended.  (The source tests `full_prompt.strip().endswith("json")`;
stripping the leading side too cannot change an `endswith` test against
the all-non-whitespace suffix "json", by `pyEndswith_pyStrip_json`.) -/
theorem c3_json_suffix_test (prompt systemPrompt : List Char) :
    (pyEndswith (pyRstrip (composePrompt prompt systemPrompt)) jsonFormat = false →
       composeFull prompt systemPrompt jsonFormat
         = composePrompt prompt systemPrompt ++ jsonInstruction)
    ∧ (pyEndswith (pyRstrip (composePrompt prompt systemPrompt)) jsonFormat = true →
       composeFull prompt systemPrompt jsonFormat = composePrompt prompt systemPrompt) := by
  unfold composeFull
  rw [if_pos rfl, pyEndswith_pyStrip_json]
  constructor
  · intro h
    rw [if_neg (by rw [h]; exact Bool.false_ne_true)]
  · intro h
    rw [if_pos h]

/-- Witness for `c3_json_suffix_test`: "hi" does not end in "json", so the
instruction line is appended. -/
theorem c3_json_suffix_test_witness :
    composeFull "hi".toList [] jsonFormat
      = composePrompt "hi".toList [] ++ jsonInstruction :=
  (c3_json_suffix_test "hi".toList []).1 (by decide)

/-- Claim C9: with non-empty systemPrompt, the chat-wrapped prompt is the
system marker line carrying the system prompt, the user line carrying the
raw prompt, and the trailing assistant cue with no content; in particular
the raw prompt occurs in it as a contiguous substring. -/
theorem c9_chat_wrap (prompt systemPrompt : List Char) (h : systemPrompt ≠ []) :
    composePrompt prompt systemPrompt
      = "System: ".toList ++ systemPrompt ++ "\nUser: ".toList ++ prompt
          ++ "\nAssistant:".toList
    ∧ prompt <:+: composePrompt prompt systemPrompt := by
  have he : composePrompt prompt systemPrompt
      = "System: ".toList ++ systemPrompt ++ "\nUser: ".toList ++ prompt
          ++ "\nAssistant:".toList := by
    unfold composePrompt
    rw [if_neg h]
  refine ⟨he, ?_⟩
  rw [he]
  exact ⟨"System: ".toList ++ systemPrompt ++ "\nUser: ".toList,
    "\nAssistant:".toList, by simp [List.append_assoc]⟩

/-- Witness for `c9_chat_wrap` at a concrete request. -/
theorem c9_chat_wrap_witness :
    composePrompt "hi".toList "sys".toList
      = "System: ".toList ++ "sys".toList ++ "\nUser: ".toList ++ "hi".toList
          ++ "\nAssistant:".toList
    ∧ "hi".toList <:+: composePrompt "hi".toList "sys".toList :=
  c9_chat_wrap "hi".toList "sys".toList (by decide)

/-- Claim C10: with non-empty systemPrompt and response format "json", the
JSON instruction line is always appended — even when the raw prompt already
ends with "json" — because the chat-wrapped prompt ends with the assistant
cue, whose stripped form ends in ':' and so never ends with "json". -/
theorem c10_always_append (prompt systemPrompt : List Char) (h : systemPrompt ≠ []) :
    composeFull prompt systemPrompt jsonFormat
      = composePrompt prompt systemPrompt ++ jsonInstruction := by
  have hsplit : "\nAssistant:".toList = "\nAssistant".toList ++ [':'] := rfl
  have he : composePrompt prompt systemPrompt
      = ("System: ".toList ++ systemPrompt ++ "\nUser: ".toList ++ prompt
          ++ "\nAssistant".toList) ++ [':'] := by
    unfold composePrompt
    rw [if_neg h, hsplit]
    simp [List.append_assoc]
  obtain ⟨u, hu⟩ := pyStrip_append_of_nonspace
    ("System: ".toList ++ systemPrompt ++ "\nUser: ".toList ++ prompt
      ++ "\nAssistant".toList) ':' (by decide)
  unfold composeFull
  rw [if_pos rfl, he, hu, pyEndswith_append_colon_json]
  simp

/-- Witness for `c10_always_append`: the raw prompt ends in "json", yet the
instruction line is still appended. -/
theorem c10_always_append_witness :
    composeFull "give me json".toList "terse".toList jsonFormat
      = composePrompt "give me json".toList "terse".toList ++ jsonInstruction :=
  c10_always_append "give me json".toList "terse".toList (by decide)

/-! ## Response formatting and handler claims -/

/-- Claim C4: for "json" format, when the stripped output has no brace
span, or the extracted span does not parse, `formatOutput` returns the
stripped raw text unchanged; being a total function, it raises no error
visible to the caller. -/
theorem c4_fallback {α : Type} (loads : List Char → Option α) (dumps : α → List Char)
    (raw : List Char)
    (h : jsonSpanMatch (pyStrip raw) = none ∨
         ∀ span, jsonSpanMatch (pyStrip raw) = some span → loads span = none) :
    formatOutput loads dumps jsonFormat raw = pyStrip raw := by
  unfold formatOutput
  rw [if_pos rfl]
  rcases h with h | h
  · rw [h]
  · rcases hm : jsonSpanMatch (pyStrip raw) with _ | span
    · rfl
    · show (match loads span with
        | some json_obj => dumps json_obj
        | none => pyStrip raw) = pyStrip raw
      rw [h span hm]

/-- Witness for `c4_fallback`: an output with no brace span passes through
stripped and unchanged. -/
theorem c4_fallback_witness :
    formatOutput toyLoads toyDumps jsonFormat "no braces here".toList
      = pyStrip "no braces here".toList :=
  c4_fallback toyLoads toyDumps "no braces here".toList (Or.inl (by decide))

/-- Claim C5 (round-trip law): with a round-tripping json collaborator
(`loads (dumps v) = some v`), whenever the stripped output contains a
brace span that parses, the parse of the formatted text equals the parse
of the extracted span. -/
theorem c5_roundtrip {α : Type} (loads : List Char → Option α) (dumps : α → List Char)
    (hrt : ∀ v, loads (dumps v) = some v)
    (raw span : List Char) (v : α)
    (hspan : jsonSpanMatch (pyStrip raw) = some span)
    (hparse : loads span = some v) :
    loads (formatOutput loads dumps jsonFormat raw) = loads span := by
  have hL : formatOutput loads dumps jsonFormat raw = dumps v := by
    unfold formatOutput
    rw [if_pos rfl, hspan]
    show (match loads span with
      | some json_obj => dumps json_obj
      | none => pyStrip raw) = dumps v
    rw [hparse]
  rw [hL, hrt v, hparse]

/-- Witness for `c5_roundtrip`: the empty-object span embedded in noise
round-trips through formatting. -/
theorem c5_roundtrip_witness :
    toyLoads (formatOutput toyLoads toyDumps jsonFormat "x\x7b\x7dy".toList)
      = toyLoads ['\x7b', '\x7d'] :=
  c5_roundtrip toyLoads toyDumps (fun v => by cases v; decide)
    "x\x7b\x7dy".toList ['\x7b', '\x7d'] () (by decide) (by decide)

/-- Claim C6: when the engine invocation raises, the handler yields an
HTTP 500 error whose detail is "Generation error: " followed by the
stringified reason — no retry, no partial response. -/
theorem c6_error_path {α : Type} (loads : List Char → Option α) (dumps : α → List Char)
    (invoke : List Char → Except (List Char) (List Char))
    (prompt systemPrompt response_format e : List Char)
    (h : invoke (composeFull prompt systemPrompt response_format) = Except.error e) :
    generateHandler invoke loads dumps prompt systemPrompt response_format
      = Except.error ⟨500, "Generation error: ".toList ++ e⟩ := by
  unfold generateHandler
  rw [h]

/-- Witness for `c6_error_path` at a concrete failing engine. -/
theorem c6_error_path_witness :
    generateHandler (fun _ => Except.error "boom".toList) toyLoads toyDumps
      "hi".toList [] "text".toList
      = Except.error ⟨500, "Generation error: ".toList ++ "boom".toList⟩ :=
  c6_error_path toyLoads toyDumps (fun _ => Except.error "boom".toList)
    "hi".toList [] "text".toList "boom".toList rfl

/-- Claim C7: every successful response carries the fixed constant token
count 10, regardless of prompt, parameters, or actual generation output. -/
theorem c7_fixed_token_count {α : Type} (loads : List Char → Option α)
    (dumps : α → List Char) (invoke : List Char → Except (List Char) (List Char))
    (prompt systemPrompt response_format : List Char) (resp : GenerationResponse)
    (h : generateHandler invoke loads dumps prompt systemPrompt response_format
          = Except.ok resp) :
    resp.tokenCount = 10 := by
  unfold generateHandler at h
  rcases hc : invoke (composeFull prompt systemPrompt response_format) with e | raw
  · rw [hc] at h
    exact Except.noConfusion h
  · rw [hc] at h
    change Except.ok ⟨formatOutput loads dumps response_format raw, 10⟩
      = Except.ok resp at h
    cases h
    rfl

/-- Witness for `c7_fixed_token_count` at a concrete succeeding engine. -/
theorem c7_fixed_token_count_witness :
    (GenerationResponse.mk "out".toList 10).tokenCount = 10 :=
  c7_fixed_token_count toyLoads toyDumps (fun _ => Except.ok "out".toList)
    "hi".toList [] "text".toList (GenerationResponse.mk "out".toList 10) rfl
